import Mathlib

/-!
# systemd-syslog source: socket acquisition and source selection

A shallow embedding of `modules/afsocket/systemd-syslog-source.c`.

* C `int` / `gint` / `gboolean` values are `Int`; a C condition `if (e)` is `e ≠ 0`.
* Every function returns, next to its C return value, the values it stored through
  its pointer arguments and the list of externally visible actions it performed
  (log messages and calls into libsystemd / glib), in program order.
* The two textual variants selected by `#if ENABLE_SYSTEMD` are selected by a
  boolean argument `ENABLE_SYSTEMD`.
* Functions of other translation units (`afsocket_sd_init_instance`,
  `afsocket_sd_init_method`, `socket_options_new`, `afunix_sd_new_dgram`, ...) are
  fields of the record `Framework`; the results of the libsystemd queries are
  fields of the record `SdDaemon`.
-/

namespace SystemdSyslog

/-! ## Basic C values -/

/-- The glib boolean type is a C int. -/
abbrev gboolean := Int

/-- glib TRUE. -/
def TRUE : gboolean := 1

/-- glib FALSE. -/
def FALSE : gboolean := 0

/-- From systemd/sd-daemon.h: the first file descriptor passed by the supervisor. -/
def SD_LISTEN_FDS_START : Int := 3

/-- From sys/socket.h (Linux): the datagram socket type. -/
def SOCK_DGRAM : Int := 2

/-! ## Log events and external calls -/

/-- A tag attached to a log message (evt_tag_int / evt_tag_str). -/
inductive EvtTag where
  | evt_tag_int (name : String) (value : Int)
  | evt_tag_str (name : String) (value : String)
  deriving DecidableEq, Repr

/-- Severity of a log message, one per msg_* call used in the file. -/
inductive Severity where
  | error
  | warning
  | debug
  | verbose
  deriving DecidableEq, Repr

/-- An externally visible action of the code in this file. -/
inductive Event where
  /-- One of msg_error, msg_warning, msg_debug, msg_verbose. -/
  | msg (sev : Severity) (text : String) (tags : List EvtTag)
  /-- The call sd_listen_fds(unset_environment). -/
  | sd_listen_fds (unset_environment : Int)
  /-- The call sd_is_socket_unix(fd, type, listening, NULL, 0). -/
  | sd_is_socket_unix (fd type listening : Int)
  /-- The call g_fd_set_nonblock(fd, enable). -/
  | g_fd_set_nonblock (fd : Int) (enable : gboolean)
  deriving DecidableEq, Repr

/-- The log call msg_error. -/
def msg_error (text : String) (tags : List EvtTag) : Event := Event.msg Severity.error text tags

/-- The log call msg_warning. -/
def msg_warning (text : String) (tags : List EvtTag) : Event :=
  Event.msg Severity.warning text tags

/-- The log call msg_debug. -/
def msg_debug (text : String) (tags : List EvtTag) : Event := Event.msg Severity.debug text tags

/-- The log call msg_verbose. -/
def msg_verbose (text : String) (tags : List EvtTag) : Event :=
  Event.msg Severity.verbose text tags

/-- Whether an event is an error-level message. -/
def Event.isError : Event → Bool
  | Event.msg Severity.error _ _ => true
  | _ => false

/-- Whether an event is a warning-level message. -/
def Event.isWarning : Event → Bool
  | Event.msg Severity.warning _ _ => true
  | _ => false

/-- Whether an event is a call of the descriptor validator sd_is_socket_unix. -/
def Event.isValidatorCall : Event → Bool
  | Event.sd_is_socket_unix _ _ _ => true
  | _ => false

/-- Whether an event is a call of g_fd_set_nonblock. -/
def Event.isSetNonblock : Event → Bool
  | Event.g_fd_set_nonblock _ _ => true
  | _ => false

/-- The answers of libsystemd that the acquisition reads. -/
structure SdDaemon where
  /-- Result of sd_listen_fds(unset_environment): the number of inherited descriptors,
  or a negative errno value. -/
  sd_listen_fds : Int → Int
  /-- Result of sd_is_socket_unix(fd, type, listening, NULL, 0). -/
  sd_is_socket_unix : Int → Int → Int → Int

/-! ## systemd_syslog_sd_acquire_socket -/

/-- What a call of systemd_syslog_sd_acquire_socket leaves behind. -/
structure AcquireResult where
  /-- The C return value. -/
  ret : gboolean
  /-- The value of `*acquired_fd` after the call. -/
  acquired_fd : Int
  /-- The actions performed, in order. -/
  trace : List Event
  deriving DecidableEq, Repr

/-- The error text of the too-many-descriptors branch. -/
def MSG_TOO_MANY : String := "Systemd socket activation failed: got more than one fd"

/-- The error text of the no-descriptor branch. -/
def MSG_NONE : String := "Failed to acquire systemd sockets, disabling systemd-syslog source"

/-- The error text of the wrong-type branch. -/
def MSG_WRONG_TYPE : String :=
  "The systemd supplied UNIX domain socket is of a different type, check the configured driver and the matching systemd unit file"

/-- The function systemd_syslog_sd_acquire_socket of the `#if ENABLE_SYSTEMD` branch
(source lines 38-97).  The argument is the value `*acquired_fd` holds on entry, which the
body overwrites first; the driver argument `s` is not used by the C body. -/
def systemd_syslog_sd_acquire_socket_enabled (sd : SdDaemon) (_acquired_fd0 : Int) :
    AcquireResult :=
  -- *acquired_fd = -1; fd = -1;
  let acquired_fd : Int := -1
  -- number_of_fds = sd_listen_fds(0);
  let number_of_fds := sd.sd_listen_fds 0
  let t0 : List Event := [Event.sd_listen_fds 0]
  if number_of_fds > 1 then
    { ret := TRUE
      acquired_fd := acquired_fd
      trace := t0 ++ [msg_error MSG_TOO_MANY [EvtTag.evt_tag_int "number" number_of_fds]] }
  else if number_of_fds < 1 then
    { ret := TRUE
      acquired_fd := acquired_fd
      trace := t0 ++ [msg_error MSG_NONE []] }
  else
    let fd := SD_LISTEN_FDS_START
    let t1 := t0 ++ [msg_debug "Systemd socket activation"
                      [EvtTag.evt_tag_int "file-descriptor" fd]]
    let t2 := t1 ++ [Event.sd_is_socket_unix fd SOCK_DGRAM (-1)]
    if sd.sd_is_socket_unix fd SOCK_DGRAM (-1) ≠ 0 then
      -- *acquired_fd = fd;
      let acquired_fd := fd
      -- if (*acquired_fd != -1)
      if acquired_fd ≠ -1 then
        { ret := TRUE
          acquired_fd := acquired_fd
          trace := t2 ++ [Event.g_fd_set_nonblock acquired_fd TRUE,
                          msg_verbose "Acquired systemd syslog socket"
                            [EvtTag.evt_tag_int "systemd-syslog-sock-fd" acquired_fd]] }
      else
        { ret := TRUE, acquired_fd := acquired_fd, trace := t2 }
    else
      -- *acquired_fd = -1; return TRUE;
      { ret := TRUE
        acquired_fd := -1
        trace := t2 ++ [msg_error MSG_WRONG_TYPE
                         [EvtTag.evt_tag_int "systemd-sock-fd" fd,
                          EvtTag.evt_tag_str "expecting" "unix-dgram()"]] }

/-- The function systemd_syslog_sd_acquire_socket of the `#else` branch (source lines
102-106): nothing is read, written or logged. -/
def systemd_syslog_sd_acquire_socket_stub (acquired_fd0 : Int) : AcquireResult :=
  { ret := TRUE, acquired_fd := acquired_fd0, trace := [] }

/-- The function systemd_syslog_sd_acquire_socket, in the build chosen by ENABLE_SYSTEMD. -/
def systemd_syslog_sd_acquire_socket (ENABLE_SYSTEMD : Bool) (sd : SdDaemon)
    (acquired_fd0 : Int) : AcquireResult :=
  if ENABLE_SYSTEMD then systemd_syslog_sd_acquire_socket_enabled sd acquired_fd0
  else systemd_syslog_sd_acquire_socket_stub acquired_fd0

/-! ## C strings and strncmp -/

/-- The bytes of the C string stored in a buffer: everything before the first NUL.  A
buffer is the list of its bytes; reading behind its end yields the terminating NUL. -/
def cstr (buf : List Nat) : List Nat := buf.takeWhile (fun c => c != 0)

/-- The libc function strncmp on two buffers: compares at most `n` bytes and stops behind
a NUL.  The result is the difference of the first pair of bytes that differ, or 0. -/
def strncmp : List Nat → List Nat → Nat → Int
  | _, _, 0 => 0
  | s1, s2, n + 1 =>
    let c1 := s1.headD 0
    let c2 := s2.headD 0
    if c1 ≠ c2 then (c1 : Int) - (c2 : Int)
    else if c1 = 0 then 0
    else strncmp s1.tail s2.tail n

/-- The bytes of the string literal "/dev/log" (without the terminating NUL). -/
def DEV_LOG : List Nat := [47, 100, 101, 118, 47, 108, 111, 103]

/-! ## Driver objects -/

/-- A C function pointer stored in a driver: NULL, one of the two static functions of
this file, or a function of another translation unit (identified by its name). -/
inductive FnPtr where
  | NULL
  | systemd_syslog_sd_fallback_init_method
  | systemd_syslog_sd_acquire_socket
  | external (name : String)
  deriving DecidableEq, Repr

/-- The struct LogPipe, reduced to the member this file assigns. -/
structure LogPipe where
  init : FnPtr
  deriving DecidableEq, Repr

/-- The struct LogDriver. -/
structure LogDriver where
  super : LogPipe
  deriving DecidableEq, Repr

/-- The struct LogSrcDriver. -/
structure LogSrcDriver where
  super : LogDriver
  deriving DecidableEq, Repr

/-- The struct AFSocketSourceDriver: the members this file reads or writes, and `rest`
for all its other members.  Pointer members are `Option`, with `none` for NULL; a
pointed-to socket-options object is held by value. -/
structure AFSocketSourceDriver (Opts Addr Rest : Type) where
  super : LogSrcDriver
  socket_options : Option Opts
  acquire_socket : FnPtr
  max_connections : Int
  recvd_messages_are_local : gboolean
  bind_addr : Option Addr
  rest : Rest
  deriving DecidableEq, Repr

/-- The struct SystemDSyslogSourceDriver. -/
structure SystemDSyslogSourceDriver (Opts Addr Rest : Type) where
  super : AFSocketSourceDriver Opts Addr Rest
  deriving DecidableEq, Repr

/-- The functions and constants of other translation units that this file uses. -/
structure Framework (Opts Cfg Mapper Addr Rest UnixDrv : Type) where
  /-- The members of a zero-filled AFSocketSourceDriver that this file does not name. -/
  zero_rest : Rest
  /-- The call socket_options_new(): the contents of the new object. -/
  socket_options_new : Opts
  /-- The call socket_options_init_instance(o): the contents of `*o` afterwards. -/
  socket_options_init_instance : Opts → Opts
  /-- The call transport_mapper_unix_dgram_new(). -/
  transport_mapper_unix_dgram_new : Mapper
  /-- The call afsocket_sd_init_instance(self, socket_options, transport_mapper, cfg):
  the contents of `*self` afterwards. -/
  afsocket_sd_init_instance :
    AFSocketSourceDriver Opts Addr Rest → Opts → Mapper → Cfg → AFSocketSourceDriver Opts Addr Rest
  /-- The call afsocket_sd_init_method(s): its result and the contents of `*s` afterwards. -/
  afsocket_sd_init_method :
    AFSocketSourceDriver Opts Addr Rest → gboolean × AFSocketSourceDriver Opts Addr Rest
  /-- The call g_sockaddr_unix_new(NULL). -/
  g_sockaddr_unix_new_NULL : Addr
  /-- The call afunix_sd_new_dgram(filename, cfg). -/
  afunix_sd_new_dgram : List Nat → Cfg → UnixDrv

/-- From service-management.h: the kinds of service management. -/
inductive ServiceManagementType where
  | SMT_NONE
  | SMT_SYSTEMD
  deriving DecidableEq, Repr

section Functions

variable {Opts Cfg Mapper Addr Rest UnixDrv : Type}

/-- The memory g_new0(SystemDSyslogSourceDriver, 1) returns: all members zero. -/
def g_new0 (fw : Framework Opts Cfg Mapper Addr Rest UnixDrv) :
    SystemDSyslogSourceDriver Opts Addr Rest :=
  { super :=
      { super := { super := { super := { init := FnPtr.NULL } } }
        socket_options := none
        acquire_socket := FnPtr.NULL
        max_connections := 0
        recvd_messages_are_local := 0
        bind_addr := none
        rest := fw.zero_rest } }

/-! ## systemd_syslog_sd_fallback_init_method -/

/-- The warning of the compatibility initializer. -/
def MSG_IGNORES_OPTIONS : String :=
  "systemd-syslog() source ignores configuration options. Please, do not set anything on it"

/-- What a call of systemd_syslog_sd_fallback_init_method leaves behind. -/
structure InitResult (Opts Addr Rest : Type) where
  /-- The C return value. -/
  ret : gboolean
  /-- The driver after the call. -/
  self : SystemDSyslogSourceDriver Opts Addr Rest
  /-- The socket options passed to socket_options_free. -/
  freed : Option Opts
  /-- The driver as it was passed to afsocket_sd_init_method. -/
  delegated : AFSocketSourceDriver Opts Addr Rest
  /-- The messages logged by this function itself. -/
  trace : List Event

/-- The function systemd_syslog_sd_fallback_init_method (source lines 109-123). -/
def systemd_syslog_sd_fallback_init_method (fw : Framework Opts Cfg Mapper Addr Rest UnixDrv)
    (s : SystemDSyslogSourceDriver Opts Addr Rest) : InitResult Opts Addr Rest :=
  let self := s
  let trace := [msg_warning MSG_IGNORES_OPTIONS []]
  -- socket_options_free(self->super.socket_options);
  let freed := self.super.socket_options
  -- self->super.socket_options = socket_options_new();
  let self : SystemDSyslogSourceDriver Opts Addr Rest :=
    { self with super := { self.super with socket_options := some fw.socket_options_new } }
  -- socket_options_init_instance(self->super.socket_options);
  let self : SystemDSyslogSourceDriver Opts Addr Rest :=
    { self with super := { self.super with
        socket_options := self.super.socket_options.map fw.socket_options_init_instance } }
  -- return afsocket_sd_init_method((LogPipe*) &self->super);
  let r := fw.afsocket_sd_init_method self.super
  { ret := r.1
    self := { self with super := r.2 }
    freed := freed
    delegated := self.super
    trace := trace }

/-! ## systemd_syslog_sd_new -/

/-- The error logged by systemd_syslog_sd_new in a build without systemd support. -/
def MSG_NOT_ENABLED : String :=
  "systemd-syslog() source cannot be enabled and it is not functioning. Please compile your syslog-ng with --enable-systemd flag"

/-- What a call of systemd_syslog_sd_new leaves behind. -/
structure NewResult (Opts Addr Rest : Type) where
  /-- The driver returned. -/
  self : SystemDSyslogSourceDriver Opts Addr Rest
  /-- The driver as afsocket_sd_init_instance left it. -/
  initialised : AFSocketSourceDriver Opts Addr Rest
  /-- The messages logged. -/
  trace : List Event

/-- The function systemd_syslog_sd_new (source lines 125-154). -/
def systemd_syslog_sd_new (ENABLE_SYSTEMD : Bool)
    (fw : Framework Opts Cfg Mapper Addr Rest UnixDrv) (cfg : Cfg) (fallback : gboolean) :
    NewResult Opts Addr Rest :=
  -- #if ! ENABLE_SYSTEMD  msg_error(...)  #endif
  let trace : List Event := if ENABLE_SYSTEMD then [] else [msg_error MSG_NOT_ENABLED []]
  let self := g_new0 fw
  let transport_mapper := fw.transport_mapper_unix_dgram_new
  -- afsocket_sd_init_instance(&self->super, socket_options_new(), transport_mapper, cfg);
  let initialised :=
    fw.afsocket_sd_init_instance self.super fw.socket_options_new transport_mapper cfg
  let self : SystemDSyslogSourceDriver Opts Addr Rest := { self with super := initialised }
  -- if (fallback) self->super.super.super.super.init = systemd_syslog_sd_fallback_init_method;
  let self : SystemDSyslogSourceDriver Opts Addr Rest :=
    if fallback ≠ 0 then
      { self with super := { self.super with super := { super := { super :=
          { init := FnPtr.systemd_syslog_sd_fallback_init_method } } } } }
    else self
  let self : SystemDSyslogSourceDriver Opts Addr Rest :=
    { self with super := { self.super with
        acquire_socket := FnPtr.systemd_syslog_sd_acquire_socket
        max_connections := 256
        recvd_messages_are_local := TRUE } }
  -- if (!self->super.bind_addr) self->super.bind_addr = g_sockaddr_unix_new(NULL);
  let self : SystemDSyslogSourceDriver Opts Addr Rest :=
    if self.super.bind_addr.isNone then
      { self with super := { self.super with bind_addr := some fw.g_sockaddr_unix_new_NULL } }
    else self
  { self := self, initialised := initialised, trace := trace }

/-! ## create_and_set_unix_dgram_or_systemd_source -/

/-- The warning logged when the systemd source replaces a unix-dgram source. -/
def MSG_SUBSTITUTION : String :=
  "Using /dev/log Unix dgram socket with systemd is not possible. Changing to systemd source, which supports socket activation."

/-- The driver create_and_set_unix_dgram_or_systemd_source returns: `&sd->super` of a
systemd-syslog driver or `&ud->super` of a unix-dgram driver. -/
inductive Source (Opts Addr Rest UnixDrv : Type) where
  | systemd (sd : SystemDSyslogSourceDriver Opts Addr Rest)
  | unix_dgram (ud : UnixDrv)
  deriving DecidableEq, Repr

/-- What a call of create_and_set_unix_dgram_or_systemd_source leaves behind. -/
structure SelectResult (Opts Addr Rest UnixDrv : Type) where
  /-- The driver returned. -/
  ret : Source Opts Addr Rest UnixDrv
  /-- The driver registered with systemd_syslog_grammar_set_source_driver or
  afunix_grammar_set_source_driver. -/
  grammar_driver : Source Opts Addr Rest UnixDrv
  /-- The messages logged, in order. -/
  trace : List Event

/-- The function create_and_set_unix_dgram_or_systemd_source (source lines 156-179).
`smt` is the result of service_management_get_type() and `configuration` the value of the
global variable of that name; the parameter `cfg` is not used by the C body. -/
def create_and_set_unix_dgram_or_systemd_source (ENABLE_SYSTEMD : Bool)
    (fw : Framework Opts Cfg Mapper Addr Rest UnixDrv) (smt : ServiceManagementType)
    (configuration : Cfg) (filename : List Nat) (_cfg : Cfg) :
    SelectResult Opts Addr Rest UnixDrv :=
  if smt = ServiceManagementType.SMT_SYSTEMD ∧ strncmp DEV_LOG filename 9 = 0 then
    let trace := [msg_warning MSG_SUBSTITUTION []]
    let sd := systemd_syslog_sd_new ENABLE_SYSTEMD fw configuration TRUE
    { ret := Source.systemd sd.self
      grammar_driver := Source.systemd sd.self
      trace := trace ++ sd.trace }
  else
    let ud := fw.afunix_sd_new_dgram filename configuration
    { ret := Source.unix_dgram ud
      grammar_driver := Source.unix_dgram ud
      trace := [] }

end Functions

/-! ## Concrete collaborators used to evaluate the model -/

/-- A libsystemd that reports `n` inherited descriptors and answers `verdict` to every
sd_is_socket_unix query. -/
def sdConst (n verdict : Int) : SdDaemon :=
  { sd_listen_fds := fun _ => n, sd_is_socket_unix := fun _ _ _ => verdict }

/-- A small framework: socket options are a pair (so_sndbuf, so_rcvbuf), all handles are
numbers, afsocket_sd_init_instance stores the options and installs its own initializer,
and afsocket_sd_init_method succeeds without changing the driver. -/
def fwExample : Framework (Nat × Nat) Nat Nat (Option String) Nat (List Nat × Nat) :=
  { zero_rest := 0
    socket_options_new := (0, 0)
    socket_options_init_instance := fun _ => (0, 0)
    transport_mapper_unix_dgram_new := 1
    afsocket_sd_init_instance := fun d o _ cfg =>
      { d with
          super := { super := { super := { init := FnPtr.external "afsocket_sd_init_method" } } }
          socket_options := some o
          rest := cfg }
    afsocket_sd_init_method := fun d => (TRUE, d)
    g_sockaddr_unix_new_NULL := none
    afunix_sd_new_dgram := fun filename cfg => (filename, cfg) }

theorem cstr_nil : cstr [] = [] := rfl

theorem cstr_cons (c : Nat) (u : List Nat) :
    cstr (c :: u) = if c = 0 then [] else c :: cstr u := by
  by_cases h : c = 0 <;> simp [cstr, List.takeWhile_cons, h]

/-- For a string `s1` without NUL bytes and a bound `n` beyond its length, strncmp
answers 0 exactly for the buffers holding the C string `s1`. -/
theorem strncmp_eq_zero_iff (s1 : List Nat) (hs : ∀ c ∈ s1, c ≠ 0) :
    ∀ (s2 : List Nat) (n : Nat), s1.length < n → (strncmp s1 s2 n = 0 ↔ cstr s2 = s1) := by
  induction s1 with
  | nil =>
    intro s2 n hn
    obtain ⟨m, rfl⟩ : ∃ m, n = m + 1 := ⟨n - 1, by simp at hn; omega⟩
    cases s2 with
    | nil => simp [strncmp, cstr_nil]
    | cons b u =>
      by_cases hb : b = 0
      · simp [strncmp, cstr_cons, hb]
      · have hb2 : ¬ (0 = b) := fun h => hb h.symm
        simp [strncmp, cstr_cons, hb, hb2]
  | cons a t ih =>
    intro s2 n hn
    have ha : a ≠ 0 := hs a (by simp)
    have ht : ∀ c ∈ t, c ≠ 0 := fun c hc => hs c (by simp [hc])
    obtain ⟨m, rfl⟩ : ∃ m, n = m + 1 := ⟨n - 1, by simp at hn; omega⟩
    have hm : t.length < m := by simp at hn; omega
    cases s2 with
    | nil =>
      simp [strncmp, cstr_nil, ha]
    | cons b u =>
      by_cases hab : a = b
      · subst hab
        simp [strncmp, cstr_cons, ha, ih ht u m hm]
      · have hba : ¬ (b = a) := fun h => hab h.symm
        by_cases hb : b = 0
        · simp [strncmp, cstr_cons, hab, hb, ha]
        · simp [strncmp, cstr_cons, hab, hb, hba]
          omega

/-- The comparison in create_and_set_unix_dgram_or_systemd_source succeeds exactly for
the buffers holding the C string "/dev/log". -/
theorem strncmp_DEV_LOG (filename : List Nat) :
    strncmp DEV_LOG filename 9 = 0 ↔ cstr filename = DEV_LOG :=
  strncmp_eq_zero_iff DEV_LOG (by decide) filename 9 (by decide)

/-- The list DEV_LOG holds the character codes of "/dev/log". -/
theorem DEV_LOG_eq : "/dev/log".toList.map Char.toNat = DEV_LOG := by decide

/-! ## Properties of systemd_syslog_sd_new -/

section NewLemmas

variable {Opts Cfg Mapper Addr Rest UnixDrv : Type}

/-- The driver handed to the later assignments is the one afsocket_sd_init_instance
filled in from zeroed memory. -/
theorem sd_new_initialised (ENABLE_SYSTEMD : Bool)
    (fw : Framework Opts Cfg Mapper Addr Rest UnixDrv) (cfg : Cfg) (fallback : gboolean) :
    (systemd_syslog_sd_new ENABLE_SYSTEMD fw cfg fallback).initialised =
      fw.afsocket_sd_init_instance (g_new0 fw).super fw.socket_options_new
        fw.transport_mapper_unix_dgram_new cfg := rfl

/-- The messages of systemd_syslog_sd_new: the missing-support error in the build without
systemd support, nothing otherwise. -/
theorem sd_new_trace (ENABLE_SYSTEMD : Bool)
    (fw : Framework Opts Cfg Mapper Addr Rest UnixDrv) (cfg : Cfg) (fallback : gboolean) :
    (systemd_syslog_sd_new ENABLE_SYSTEMD fw cfg fallback).trace =
      if ENABLE_SYSTEMD then [] else [msg_error MSG_NOT_ENABLED []] := rfl

/-- The init method after systemd_syslog_sd_new. -/
theorem sd_new_init (ENABLE_SYSTEMD : Bool)
    (fw : Framework Opts Cfg Mapper Addr Rest UnixDrv) (cfg : Cfg) (fallback : gboolean) :
    (systemd_syslog_sd_new ENABLE_SYSTEMD fw cfg fallback).self.super.super.super.super.init =
      if fallback ≠ 0 then FnPtr.systemd_syslog_sd_fallback_init_method
      else (systemd_syslog_sd_new ENABLE_SYSTEMD fw cfg fallback).initialised.super.super.super.init := by
  simp only [systemd_syslog_sd_new]
  split <;> split <;> simp_all

/-- The members assigned unconditionally by systemd_syslog_sd_new. -/
theorem sd_new_assigned (ENABLE_SYSTEMD : Bool)
    (fw : Framework Opts Cfg Mapper Addr Rest UnixDrv) (cfg : Cfg) (fallback : gboolean) :
    (systemd_syslog_sd_new ENABLE_SYSTEMD fw cfg fallback).self.super.acquire_socket =
      FnPtr.systemd_syslog_sd_acquire_socket ∧
    (systemd_syslog_sd_new ENABLE_SYSTEMD fw cfg fallback).self.super.max_connections = 256 ∧
    (systemd_syslog_sd_new ENABLE_SYSTEMD fw cfg fallback).self.super.recvd_messages_are_local =
      TRUE := by
  simp only [systemd_syslog_sd_new]
  split <;> split <;> simp_all

/-- The bind address after systemd_syslog_sd_new. -/
theorem sd_new_bind_addr (ENABLE_SYSTEMD : Bool)
    (fw : Framework Opts Cfg Mapper Addr Rest UnixDrv) (cfg : Cfg) (fallback : gboolean) :
    (systemd_syslog_sd_new ENABLE_SYSTEMD fw cfg fallback).self.super.bind_addr =
      match (systemd_syslog_sd_new ENABLE_SYSTEMD fw cfg fallback).initialised.bind_addr with
      | some a => some a
      | none => some fw.g_sockaddr_unix_new_NULL := by
  simp only [systemd_syslog_sd_new]
  cases hb : (fw.afsocket_sd_init_instance (g_new0 fw).super fw.socket_options_new
      fw.transport_mapper_unix_dgram_new cfg).bind_addr <;>
    split <;> simp_all

end NewLemmas

/-! ## Acquisition -/

/-- What the acquisition does with the answer of sd_is_socket_unix, for every descriptor
count and every int answer: a descriptor is handed back (`*acquired_fd != -1`) if and only
if the count is 1 and the answer is non-zero, which is the test of source line 70; the
descriptor is then SD_LISTEN_FDS_START and g_fd_set_nonblock has been called on it. -/
theorem acquire_iff_nonzero_answer (sd : SdDaemon) (acquired_fd0 : Int) :
    ((systemd_syslog_sd_acquire_socket true sd acquired_fd0).acquired_fd ≠ -1 ↔
      (sd.sd_listen_fds 0 = 1 ∧ sd.sd_is_socket_unix SD_LISTEN_FDS_START SOCK_DGRAM (-1) ≠ 0)) ∧
    ((systemd_syslog_sd_acquire_socket true sd acquired_fd0).acquired_fd ≠ -1 →
      (systemd_syslog_sd_acquire_socket true sd acquired_fd0).acquired_fd = SD_LISTEN_FDS_START ∧
      Event.g_fd_set_nonblock SD_LISTEN_FDS_START TRUE ∈
        (systemd_syslog_sd_acquire_socket true sd acquired_fd0).trace) := by
  simp only [systemd_syslog_sd_acquire_socket, systemd_syslog_sd_acquire_socket_enabled,
    if_true]
  by_cases h1 : sd.sd_listen_fds 0 > 1
  · simp only [h1, if_true]
    refine ⟨⟨fun h => absurd rfl h, fun h => by omega⟩, fun h => absurd rfl h⟩
  · by_cases h2 : sd.sd_listen_fds 0 < 1
    · simp only [h1, h2, if_true, if_false]
      refine ⟨⟨fun h => absurd rfl h, fun h => by omega⟩, fun h => absurd rfl h⟩
    · have h3 : sd.sd_listen_fds 0 = 1 := by omega
      by_cases h4 : sd.sd_is_socket_unix SD_LISTEN_FDS_START SOCK_DGRAM (-1) = 0
      · simp [h1, h2, h4]
      · have h5 : ¬ sd.sd_is_socket_unix 3 SOCK_DGRAM (-1) = 0 := h4
        simp [h1, h2, h3, h5, SD_LISTEN_FDS_START]

/-- C1: the code departs from the claim when sd_is_socket_unix fails.  With one inherited
descriptor and the answer -9 (the negative errno value for EBADF, so the descriptor was not
accepted as a unix datagram socket), the acquisition still hands back
SD_LISTEN_FDS_START, sets it non-blocking and logs the successful acquisition: line 70
tests the answer for being non-zero, not for being positive. -/
theorem acquire_hands_back_unvalidated :
    (sdConst 1 (-9)).sd_listen_fds 0 = 1 ∧
    ¬ (0 < (sdConst 1 (-9)).sd_is_socket_unix SD_LISTEN_FDS_START SOCK_DGRAM (-1)) ∧
    (systemd_syslog_sd_acquire_socket true (sdConst 1 (-9)) (-1)).acquired_fd ≠ -1 ∧
    systemd_syslog_sd_acquire_socket true (sdConst 1 (-9)) (-1) =
      { ret := TRUE
        acquired_fd := SD_LISTEN_FDS_START
        trace :=
          [Event.sd_listen_fds 0,
           msg_debug "Systemd socket activation"
             [EvtTag.evt_tag_int "file-descriptor" SD_LISTEN_FDS_START],
           Event.sd_is_socket_unix SD_LISTEN_FDS_START SOCK_DGRAM (-1),
           Event.g_fd_set_nonblock SD_LISTEN_FDS_START TRUE,
           msg_verbose "Acquired systemd syslog socket"
             [EvtTag.evt_tag_int "systemd-syslog-sock-fd" SD_LISTEN_FDS_START]] } := by
  decide

/-- C2: for every descriptor count above 1 the acquisition returns with `*acquired_fd`
equal to -1 after logging exactly one error, tagged with the count; whatever the validator
would answer, it is not called, and g_fd_set_nonblock is not called either. -/
theorem acquire_too_many (sd : SdDaemon) (acquired_fd0 : Int) (h : sd.sd_listen_fds 0 > 1) :
    (systemd_syslog_sd_acquire_socket true sd acquired_fd0).acquired_fd = -1 ∧
    (systemd_syslog_sd_acquire_socket true sd acquired_fd0).trace =
      [Event.sd_listen_fds 0,
       msg_error MSG_TOO_MANY [EvtTag.evt_tag_int "number" (sd.sd_listen_fds 0)]] ∧
    (systemd_syslog_sd_acquire_socket true sd acquired_fd0).trace.filter Event.isError =
      [msg_error MSG_TOO_MANY [EvtTag.evt_tag_int "number" (sd.sd_listen_fds 0)]] ∧
    (∀ e ∈ (systemd_syslog_sd_acquire_socket true sd acquired_fd0).trace,
      e.isValidatorCall = false ∧ e.isSetNonblock = false) := by
  simp [systemd_syslog_sd_acquire_socket, systemd_syslog_sd_acquire_socket_enabled, h,
    msg_error, Event.isError, Event.isValidatorCall, Event.isSetNonblock]

/-- Witness of C2: five inherited descriptors, all of which would validate. -/
theorem acquire_too_many_witness :
    (systemd_syslog_sd_acquire_socket true (sdConst 5 1) 0).acquired_fd = -1 ∧
    (systemd_syslog_sd_acquire_socket true (sdConst 5 1) 0).trace =
      [Event.sd_listen_fds 0, msg_error MSG_TOO_MANY [EvtTag.evt_tag_int "number" 5]] :=
  ⟨(acquire_too_many (sdConst 5 1) 0 (by decide)).1,
   (acquire_too_many (sdConst 5 1) 0 (by decide)).2.1⟩

/-- C3: for every descriptor count below 1 (zero or a negative result of sd_listen_fds) the
acquisition returns with `*acquired_fd` equal to -1 after logging exactly one error; the
validator and g_fd_set_nonblock are not called. -/
theorem acquire_none_available (sd : SdDaemon) (acquired_fd0 : Int)
    (h : sd.sd_listen_fds 0 < 1) :
    (systemd_syslog_sd_acquire_socket true sd acquired_fd0).acquired_fd = -1 ∧
    (systemd_syslog_sd_acquire_socket true sd acquired_fd0).trace =
      [Event.sd_listen_fds 0, msg_error MSG_NONE []] ∧
    (systemd_syslog_sd_acquire_socket true sd acquired_fd0).trace.filter Event.isError =
      [msg_error MSG_NONE []] ∧
    (∀ e ∈ (systemd_syslog_sd_acquire_socket true sd acquired_fd0).trace,
      e.isValidatorCall = false ∧ e.isSetNonblock = false) := by
  have h1 : ¬ sd.sd_listen_fds 0 > 1 := by omega
  simp [systemd_syslog_sd_acquire_socket, systemd_syslog_sd_acquire_socket_enabled, h, h1,
    msg_error, Event.isError, Event.isValidatorCall, Event.isSetNonblock]

/-- Witness of C3: sd_listen_fds fails with a negative value. -/
theorem acquire_none_available_witness :
    (systemd_syslog_sd_acquire_socket true (sdConst (-22) 1) 0).acquired_fd = -1 ∧
    (systemd_syslog_sd_acquire_socket true (sdConst (-22) 1) 0).trace =
      [Event.sd_listen_fds 0, msg_error MSG_NONE []] :=
  ⟨(acquire_none_available (sdConst (-22) 1) 0 (by decide)).1,
   (acquire_none_available (sdConst (-22) 1) 0 (by decide)).2.1⟩

/-- C4: when the descriptor count is 1 and the validator rejects the first inherited slot
(answer 0), the acquisition returns with `*acquired_fd` equal to -1 after logging exactly
one error that names the descriptor and the expected kind; the only calls made are the two
queries, so the descriptor is neither closed nor set non-blocking. -/
theorem acquire_wrong_type (sd : SdDaemon) (acquired_fd0 : Int)
    (hn : sd.sd_listen_fds 0 = 1)
    (hv : sd.sd_is_socket_unix SD_LISTEN_FDS_START SOCK_DGRAM (-1) = 0) :
    (systemd_syslog_sd_acquire_socket true sd acquired_fd0).acquired_fd = -1 ∧
    (systemd_syslog_sd_acquire_socket true sd acquired_fd0).trace =
      [Event.sd_listen_fds 0,
       msg_debug "Systemd socket activation"
         [EvtTag.evt_tag_int "file-descriptor" SD_LISTEN_FDS_START],
       Event.sd_is_socket_unix SD_LISTEN_FDS_START SOCK_DGRAM (-1),
       msg_error MSG_WRONG_TYPE
         [EvtTag.evt_tag_int "systemd-sock-fd" SD_LISTEN_FDS_START,
          EvtTag.evt_tag_str "expecting" "unix-dgram()"]] ∧
    (systemd_syslog_sd_acquire_socket true sd acquired_fd0).trace.filter Event.isError =
      [msg_error MSG_WRONG_TYPE
         [EvtTag.evt_tag_int "systemd-sock-fd" SD_LISTEN_FDS_START,
          EvtTag.evt_tag_str "expecting" "unix-dgram()"]] ∧
    (∀ e ∈ (systemd_syslog_sd_acquire_socket true sd acquired_fd0).trace,
      e.isSetNonblock = false) := by
  simp [systemd_syslog_sd_acquire_socket, systemd_syslog_sd_acquire_socket_enabled, hn, hv,
    msg_error, msg_debug, Event.isError, Event.isSetNonblock]

/-- Witness of C4: a single inherited descriptor that is not a unix datagram socket. -/
theorem acquire_wrong_type_witness :
    (systemd_syslog_sd_acquire_socket true (sdConst 1 0) 0).acquired_fd = -1 ∧
    (∀ e ∈ (systemd_syslog_sd_acquire_socket true (sdConst 1 0) 0).trace,
      e.isSetNonblock = false) :=
  ⟨(acquire_wrong_type (sdConst 1 0) 0 (by decide) (by decide)).1,
   (acquire_wrong_type (sdConst 1 0) 0 (by decide) (by decide)).2.2.2⟩

/-- C7: in both builds, for every descriptor count and every answer of the validator, the
acquisition returns TRUE and never FALSE; with activation support, every outcome other
than a single accepted descriptor leaves `*acquired_fd` at -1. -/
theorem acquire_returns_TRUE (ENABLE_SYSTEMD : Bool) (sd : SdDaemon) (acquired_fd0 : Int) :
    (systemd_syslog_sd_acquire_socket ENABLE_SYSTEMD sd acquired_fd0).ret = TRUE ∧
    (systemd_syslog_sd_acquire_socket ENABLE_SYSTEMD sd acquired_fd0).ret ≠ FALSE ∧
    (¬ (sd.sd_listen_fds 0 = 1 ∧
        sd.sd_is_socket_unix SD_LISTEN_FDS_START SOCK_DGRAM (-1) ≠ 0) →
      (systemd_syslog_sd_acquire_socket true sd acquired_fd0).acquired_fd = -1) := by
  have hret : (systemd_syslog_sd_acquire_socket ENABLE_SYSTEMD sd acquired_fd0).ret = TRUE := by
    cases ENABLE_SYSTEMD
    · rfl
    · simp only [systemd_syslog_sd_acquire_socket, systemd_syslog_sd_acquire_socket_enabled,
        if_true]
      split
      · rfl
      · split
        · rfl
        · split
          · split <;> rfl
          · rfl
  refine ⟨hret, ?_, ?_⟩
  · rw [hret]; decide
  · intro h
    simp only [systemd_syslog_sd_acquire_socket, systemd_syslog_sd_acquire_socket_enabled,
      if_true]
    by_cases h1 : sd.sd_listen_fds 0 > 1
    · simp [h1]
    · by_cases h2 : sd.sd_listen_fds 0 < 1
      · simp [h1, h2]
      · have h3 : sd.sd_listen_fds 0 = 1 := by omega
        have h4 : sd.sd_is_socket_unix SD_LISTEN_FDS_START SOCK_DGRAM (-1) = 0 := by
          by_contra hc
          exact h ⟨h3, hc⟩
        simp [h1, h2, h4]

/-- Witness of C7: two inherited descriptors are reported by TRUE and no descriptor. -/
theorem acquire_returns_TRUE_witness :
    (systemd_syslog_sd_acquire_socket true (sdConst 2 1) 0).ret = TRUE ∧
    (systemd_syslog_sd_acquire_socket true (sdConst 2 1) 0).acquired_fd = -1 :=
  ⟨(acquire_returns_TRUE true (sdConst 2 1) 0).1,
   (acquire_returns_TRUE true (sdConst 2 1) 0).2.2 (by decide)⟩

/-! ## Selection -/

/-- C5: when service management is systemd and the path is "/dev/log", in either build,
the selection returns the systemd-syslog source made by systemd_syslog_sd_new with the
fallback flag set, whose init method is the compatibility initializer, and the trace of
the call holds the substitution warning exactly once (and no other warning). -/
theorem select_systemd_for_dev_log {Opts Cfg Mapper Addr Rest UnixDrv : Type}
    (ENABLE_SYSTEMD : Bool) (fw : Framework Opts Cfg Mapper Addr Rest UnixDrv)
    (configuration cfg : Cfg) (filename : List Nat) (hpath : cstr filename = DEV_LOG) :
    (create_and_set_unix_dgram_or_systemd_source ENABLE_SYSTEMD fw
        ServiceManagementType.SMT_SYSTEMD configuration filename cfg).ret =
      Source.systemd (systemd_syslog_sd_new ENABLE_SYSTEMD fw configuration TRUE).self ∧
    (systemd_syslog_sd_new ENABLE_SYSTEMD fw configuration TRUE).self.super.super.super.super.init =
      FnPtr.systemd_syslog_sd_fallback_init_method ∧
    (create_and_set_unix_dgram_or_systemd_source ENABLE_SYSTEMD fw
        ServiceManagementType.SMT_SYSTEMD configuration filename cfg).trace.filter
        Event.isWarning = [msg_warning MSG_SUBSTITUTION []] ∧
    (create_and_set_unix_dgram_or_systemd_source ENABLE_SYSTEMD fw
        ServiceManagementType.SMT_SYSTEMD configuration filename cfg).trace.count
        (msg_warning MSG_SUBSTITUTION []) = 1 := by
  have hcmp : strncmp DEV_LOG filename 9 = 0 := (strncmp_DEV_LOG filename).2 hpath
  have hinit := sd_new_init ENABLE_SYSTEMD fw configuration TRUE
  rw [if_pos (by decide)] at hinit
  refine ⟨?_, hinit, ?_, ?_⟩
  · simp [create_and_set_unix_dgram_or_systemd_source, hcmp]
  · cases ENABLE_SYSTEMD <;>
      simp [create_and_set_unix_dgram_or_systemd_source, hcmp, sd_new_trace,
        msg_warning, msg_error, Event.isWarning]
  · cases ENABLE_SYSTEMD <;>
      simp [create_and_set_unix_dgram_or_systemd_source, hcmp, sd_new_trace,
        msg_warning, msg_error]

/-- Witness of C5: the path "/dev/log" under systemd, in the build with systemd support. -/
theorem select_systemd_for_dev_log_witness :
    (create_and_set_unix_dgram_or_systemd_source true fwExample
        ServiceManagementType.SMT_SYSTEMD 0 DEV_LOG 0).trace.count
        (msg_warning MSG_SUBSTITUTION []) = 1 :=
  (select_systemd_for_dev_log true fwExample 0 0 DEV_LOG (by decide)).2.2.2

/-- C6: in either build, when service management is not systemd or the path is not exactly
"/dev/log", the selection returns the unix-dgram source that afunix_sd_new_dgram makes for
the given path, and it logs nothing, in particular no substitution warning. -/
theorem select_native_otherwise {Opts Cfg Mapper Addr Rest UnixDrv : Type}
    (ENABLE_SYSTEMD : Bool) (fw : Framework Opts Cfg Mapper Addr Rest UnixDrv)
    (smt : ServiceManagementType) (configuration cfg : Cfg) (filename : List Nat)
    (h : smt ≠ ServiceManagementType.SMT_SYSTEMD ∨ cstr filename ≠ DEV_LOG) :
    (create_and_set_unix_dgram_or_systemd_source ENABLE_SYSTEMD fw smt configuration
        filename cfg).ret = Source.unix_dgram (fw.afunix_sd_new_dgram filename configuration) ∧
    (create_and_set_unix_dgram_or_systemd_source ENABLE_SYSTEMD fw smt configuration
        filename cfg).trace = [] ∧
    (create_and_set_unix_dgram_or_systemd_source ENABLE_SYSTEMD fw smt configuration
        filename cfg).trace.count (msg_warning MSG_SUBSTITUTION []) = 0 := by
  have hc : ¬ (smt = ServiceManagementType.SMT_SYSTEMD ∧ strncmp DEV_LOG filename 9 = 0) := by
    rintro ⟨h1, h2⟩
    rcases h with h | h
    · exact h h1
    · exact h ((strncmp_DEV_LOG filename).1 h2)
  simp [create_and_set_unix_dgram_or_systemd_source, hc]

/-- Witness of C6: the path "/dev/log2" under systemd selects the unix-dgram source. -/
theorem select_native_otherwise_witness :
    (create_and_set_unix_dgram_or_systemd_source true fwExample
        ServiceManagementType.SMT_SYSTEMD 0 (DEV_LOG ++ [50]) 0).ret =
      Source.unix_dgram (DEV_LOG ++ [50], 0) :=
  (select_native_otherwise true fwExample ServiceManagementType.SMT_SYSTEMD 0 0
    (DEV_LOG ++ [50]) (Or.inr (by decide))).1

/-- The driver the selection returns is the same in both builds: the function does not
test ENABLE_SYSTEMD. -/
theorem select_ret_independent_of_build {Opts Cfg Mapper Addr Rest UnixDrv : Type}
    (fw : Framework Opts Cfg Mapper Addr Rest UnixDrv)
    (smt : ServiceManagementType) (configuration cfg : Cfg) (filename : List Nat) :
    (create_and_set_unix_dgram_or_systemd_source false fw smt configuration filename cfg).ret =
      (create_and_set_unix_dgram_or_systemd_source true fw smt configuration filename cfg).ret := by
  by_cases hc : smt = ServiceManagementType.SMT_SYSTEMD ∧ strncmp DEV_LOG filename 9 = 0
  · simp only [create_and_set_unix_dgram_or_systemd_source, hc, and_self, if_true]
    rfl
  · simp only [create_and_set_unix_dgram_or_systemd_source, hc, if_false]

/-- C8: for every driver state, whatever socket options it holds, running the
compatibility initializer a second time leaves the same socket options as running it once,
namely the defaults `socket_options_init_instance(socket_options_new())`, provided the
shared afsocket_sd_init_method leaves the socket options of a driver alone; in both runs
the options that afsocket_sd_init_method receives are these defaults. -/
theorem fallback_init_idempotent {Opts Cfg Mapper Addr Rest UnixDrv : Type}
    (fw : Framework Opts Cfg Mapper Addr Rest UnixDrv)
    (s : SystemDSyslogSourceDriver Opts Addr Rest)
    (hframe : ∀ d, (fw.afsocket_sd_init_method d).2.socket_options = d.socket_options) :
    (systemd_syslog_sd_fallback_init_method fw
        (systemd_syslog_sd_fallback_init_method fw s).self).self.super.socket_options =
      (systemd_syslog_sd_fallback_init_method fw s).self.super.socket_options ∧
    (systemd_syslog_sd_fallback_init_method fw s).self.super.socket_options =
      some (fw.socket_options_init_instance fw.socket_options_new) ∧
    (systemd_syslog_sd_fallback_init_method fw s).delegated.socket_options =
      some (fw.socket_options_init_instance fw.socket_options_new) ∧
    (systemd_syslog_sd_fallback_init_method fw
        (systemd_syslog_sd_fallback_init_method fw s).self).delegated.socket_options =
      some (fw.socket_options_init_instance fw.socket_options_new) := by
  have hrun : ∀ t : SystemDSyslogSourceDriver Opts Addr Rest,
      (systemd_syslog_sd_fallback_init_method fw t).self.super.socket_options =
        some (fw.socket_options_init_instance fw.socket_options_new) := by
    intro t
    simp [systemd_syslog_sd_fallback_init_method, hframe]
  have hseen : ∀ t : SystemDSyslogSourceDriver Opts Addr Rest,
      (systemd_syslog_sd_fallback_init_method fw t).delegated.socket_options =
        some (fw.socket_options_init_instance fw.socket_options_new) := by
    intro t
    simp [systemd_syslog_sd_fallback_init_method]
  exact ⟨by rw [hrun, hrun], hrun s, hseen s, hseen _⟩

/-- Witness of C8: a driver whose user-set options are (4096, 8192) ends with the defaults
after one run and after two. -/
theorem fallback_init_idempotent_witness :
    (systemd_syslog_sd_fallback_init_method fwExample
        (systemd_syslog_sd_fallback_init_method fwExample
          { super := { (g_new0 fwExample).super with socket_options := some (4096, 8192) } }
          ).self).self.super.socket_options =
      (systemd_syslog_sd_fallback_init_method fwExample
          { super := { (g_new0 fwExample).super with socket_options := some (4096, 8192) } }
          ).self.super.socket_options ∧
    (systemd_syslog_sd_fallback_init_method fwExample
          { super := { (g_new0 fwExample).super with socket_options := some (4096, 8192) } }
          ).self.super.socket_options = some (0, 0) :=
  ⟨(fallback_init_idempotent fwExample
      { super := { (g_new0 fwExample).super with socket_options := some (4096, 8192) } }
      (fun _ => rfl)).1,
   (fallback_init_idempotent fwExample
      { super := { (g_new0 fwExample).super with socket_options := some (4096, 8192) } }
      (fun _ => rfl)).2.1⟩

/-- C10: in either build, for every configuration and every value of the fallback flag,
systemd_syslog_sd_new returns the driver that afsocket_sd_init_instance initialised, with
acquire_socket set to systemd_syslog_sd_acquire_socket, max_connections 256 and
recvd_messages_are_local TRUE; its init method is the compatibility initializer when the
flag is true and the one installed by afsocket_sd_init_instance otherwise (so, the latter
being a different function, it is the compatibility initializer exactly when the flag is
true); a bind address set by afsocket_sd_init_instance is kept and a missing one becomes
g_sockaddr_unix_new(NULL). -/
theorem sd_new_configures_driver {Opts Cfg Mapper Addr Rest UnixDrv : Type}
    (ENABLE_SYSTEMD : Bool) (fw : Framework Opts Cfg Mapper Addr Rest UnixDrv) (cfg : Cfg)
    (fallback : gboolean) :
    (systemd_syslog_sd_new ENABLE_SYSTEMD fw cfg fallback).initialised =
      fw.afsocket_sd_init_instance (g_new0 fw).super fw.socket_options_new
        fw.transport_mapper_unix_dgram_new cfg ∧
    (systemd_syslog_sd_new ENABLE_SYSTEMD fw cfg fallback).self.super.acquire_socket =
      FnPtr.systemd_syslog_sd_acquire_socket ∧
    (systemd_syslog_sd_new ENABLE_SYSTEMD fw cfg fallback).self.super.max_connections = 256 ∧
    (systemd_syslog_sd_new ENABLE_SYSTEMD fw cfg fallback).self.super.recvd_messages_are_local =
      TRUE ∧
    (systemd_syslog_sd_new ENABLE_SYSTEMD fw cfg fallback).self.super.super.super.super.init =
      (if fallback ≠ 0 then FnPtr.systemd_syslog_sd_fallback_init_method
       else (systemd_syslog_sd_new ENABLE_SYSTEMD fw cfg
              fallback).initialised.super.super.super.init) ∧
    ((systemd_syslog_sd_new ENABLE_SYSTEMD fw cfg fallback).initialised.super.super.super.init ≠
        FnPtr.systemd_syslog_sd_fallback_init_method →
      ((systemd_syslog_sd_new ENABLE_SYSTEMD fw cfg fallback).self.super.super.super.super.init =
        FnPtr.systemd_syslog_sd_fallback_init_method ↔ fallback ≠ 0)) ∧
    (systemd_syslog_sd_new ENABLE_SYSTEMD fw cfg fallback).self.super.bind_addr =
      (match (systemd_syslog_sd_new ENABLE_SYSTEMD fw cfg fallback).initialised.bind_addr with
       | some a => some a
       | none => some fw.g_sockaddr_unix_new_NULL) := by
  have hinit := sd_new_init ENABLE_SYSTEMD fw cfg fallback
  have hasg := sd_new_assigned ENABLE_SYSTEMD fw cfg fallback
  refine ⟨rfl, hasg.1, hasg.2.1, hasg.2.2, hinit, ?_, sd_new_bind_addr ENABLE_SYSTEMD fw cfg fallback⟩
  intro hne
  rw [hinit]
  by_cases hf : fallback = 0
  · subst hf
    simpa using hne
  · simp [hf]

/-- Witness of C10: without the fallback flag the init method stays the one of the
framework, and the missing bind address is filled in. -/
theorem sd_new_configures_driver_witness :
    ((systemd_syslog_sd_new true fwExample 7 FALSE).self.super.super.super.super.init =
        FnPtr.systemd_syslog_sd_fallback_init_method ↔ FALSE ≠ 0) ∧
    (systemd_syslog_sd_new true fwExample 7 FALSE).self.super.super.super.super.init =
      FnPtr.external "afsocket_sd_init_method" ∧
    (systemd_syslog_sd_new true fwExample 7 FALSE).self.super.bind_addr = some none :=
  ⟨(sd_new_configures_driver true fwExample 7 FALSE).2.2.2.2.2.1 (by decide),
   by decide, by decide⟩

end SystemdSyslog
